import Mathlib

/-!
Verification of the heart-rate training-zone and exercise-recommendation engine
of the fitness-assistant repository.

The Python sources are shallowly embedded as executable Lean definitions:
machine floats appearing in the sources only ever enter comparisons or
truncations of the form `hr > max_hr * c`, `int(x * c)`, `round(x)` with small
integer operands; every such operation was checked exhaustively (over the
integer domains used by the theorems below, hr ≤ 400, 90 ≤ max_hr ≤ 220,
resting ≤ 120, reserve ≤ 179) to agree with the exact rational counterpart
used here, except for two truncation artifacts in the percent-of-max zone
table which are reproduced verbatim (see `pyTruncMulTenth`).
-/

namespace FitnessAssistant

/-- Health conditions, from `models/user.py` (`HealthCondition`). -/
inductive HealthCondition
  | diabetes
  | hypertension
  | heart_disease
  | asthma
  | arthritis
  | pregnancy
deriving DecidableEq, Repr

/-- Fitness levels, from `models/user.py` (`FitnessLevel`). -/
inductive FitnessLevel
  | beginner
  | intermediate
  | advanced
deriving DecidableEq, Repr

/-- The string value of a fitness level, as `fitness_level.value` in Python. -/
def FitnessLevel.value : FitnessLevel → String
  | .beginner => "beginner"
  | .intermediate => "intermediate"
  | .advanced => "advanced"

/-- Risk levels used by `utils/safety.py` (`risk_level` strings). -/
inductive RiskLevel
  | low
  | moderate
  | high
  | critical
deriving DecidableEq, Repr

namespace Safety

/-- Per-fitness-level safety factor numerator (over 100), from the
`safety_limits` dict in `check_heart_rate_safety`.  The dict default 0.80 is
unreachable for the three-valued enum. -/
def safetyLimitPct : FitnessLevel → Nat
  | .beginner => 75
  | .intermediate => 85
  | .advanced => 90

/-- Condition-specific warning threshold (percent of max HR), from the
`condition_limits` dict in `_check_hr_condition_specific`. -/
def conditionThreshold : HealthCondition → Option Nat
  | .heart_disease => some 70
  | .hypertension => some 80
  | .diabetes => some 85
  | .asthma => some 80
  | .arthritis => none
  | .pregnancy => none

/-- Condition-specific alert message, from `_check_hr_condition_specific`. -/
def conditionMessage : HealthCondition → String
  | .heart_disease => "FC alta para problemas cardíacos - Consulte seu cardiologista"
  | .hypertension => "FC alta para hipertensão - Monitore pressão arterial"
  | .diabetes => "Monitore glicemia durante exercício intenso"
  | .asthma => "FC alta pode desencadear sintomas de asma"
  | .arthritis => ""
  | .pregnancy => ""

/-- `_check_hr_condition_specific(current_hr, max_hr, condition)`: the Python
comparison `(current_hr / max_hr) * 100 > threshold` agrees with the exact
`100 * current_hr > threshold * max_hr` on the whole verified domain. -/
def check_hr_condition_specific (currentHr maxHr : Nat) (c : HealthCondition) : List String :=
  match conditionThreshold c with
  | some t => if 100 * currentHr > t * maxHr then [conditionMessage c] else []
  | none => []

/-- Mutable local state of `check_heart_rate_safety` while it runs. -/
structure SafetyState where
  isSafe : Bool
  riskLevel : RiskLevel
  alerts : List String
  recommendations : List String
deriving DecidableEq, Repr

/-- One iteration of the health-condition loop in `check_heart_rate_safety`:
extend the alerts, and on any non-empty condition alert force unsafe and set
the risk level to high. -/
def conditionStep (currentHr maxHr : Nat) (st : SafetyState) (c : HealthCondition) :
    SafetyState :=
  let conditionAlerts := check_hr_condition_specific currentHr maxHr c
  if conditionAlerts.isEmpty then
    { st with alerts := st.alerts ++ conditionAlerts }
  else
    { st with
        alerts := st.alerts ++ conditionAlerts,
        isSafe := false,
        riskLevel := .high }

/-- `_suggest_next_hr_check(risk_level)`. -/
def suggest_next_hr_check : RiskLevel → Nat
  | .low => 15
  | .moderate => 10
  | .high => 5
  | .critical => 2

/-- The safety verdict dict returned by `check_heart_rate_safety` (the
display-only `percentage_max` and `zone_description` entries, functions of
`current_hr` and `max_hr` alone, are not modelled). -/
@[ext]
structure SafetyVerdict where
  safe : Bool
  riskLevel : RiskLevel
  currentHr : Nat
  safeLimit : Nat
  maxHr : Nat
  alerts : List String
  recommendations : List String
  nextCheckMinutes : Nat
deriving DecidableEq, Repr

/-- The base verdict of `check_heart_rate_safety` before the health-condition
loop (source lines setting `is_safe`, `risk_level` and the first alert):
`is_safe` starts as `current_hr <= safe_limit` and the critical / high /
moderate / low precedence chain updates the state.  The float guards
`current_hr > max_hr * 0.95` and `current_hr > max_hr * 0.60` agree with
`20*hr > 19*max` and `5*hr > 3*max` on the whole verified integer domain. -/
def base_verdict (currentHr maxHr safeLimit : Nat) : SafetyState :=
  let st0 : SafetyState :=
    { isSafe := decide (currentHr ≤ safeLimit), riskLevel := .low,
      alerts := [], recommendations := [] }
  if 20 * currentHr > 19 * maxHr then
      { st0 with
          isSafe := false,
          riskLevel := .critical,
          alerts := st0.alerts ++ ["FC extremamente alta - PARE o exercício imediatamente"],
          recommendations := st0.recommendations ++
            ["Sente-se e descanse", "Busque ajuda médica se não melhorar em 5 minutos"] }
    else if currentHr > safeLimit then
      { st0 with
          isSafe := false,
          riskLevel := .high,
          alerts := st0.alerts ++ ["FC acima do limite seguro - Reduza a intensidade"],
          recommendations := st0.recommendations ++
            ["Diminua o ritmo gradualmente", "Monitore constantemente"] }
    else if 5 * currentHr > 3 * maxHr then
      { st0 with
          riskLevel := .moderate,
          recommendations := st0.recommendations ++
            ["FC em zona de treino - Continue monitorando"] }
    else
      { st0 with
          recommendations := st0.recommendations ++
            ["FC em zona segura - Pode aumentar intensidade gradualmente"] }

/-- `check_heart_rate_safety(current_hr, age, fitness_level, health_conditions)`
from `utils/safety.py`: the base verdict, then the health-condition loop,
then the low-HR informational alert.  `int(max_hr * factor)` agrees with
`max_hr * pct / 100` on the whole verified integer domain. -/
def check_heart_rate_safety (currentHr age : Nat) (fl : FitnessLevel)
    (conds : List HealthCondition) : SafetyVerdict :=
  let maxHr := 220 - age
  let safeLimit := maxHr * safetyLimitPct fl / 100
  let st2 := conds.foldl (conditionStep currentHr maxHr) (base_verdict currentHr maxHr safeLimit)
  let st3 : SafetyState :=
    if currentHr < 50 then
      { st2 with
          alerts := st2.alerts ++
            ["FC muito baixa - Verifique se está se exercitando adequadamente"],
          recommendations := st2.recommendations ++ ["Aumente gradualmente a intensidade"] }
    else st2
  { safe := st3.isSafe, riskLevel := st3.riskLevel, currentHr := currentHr,
    safeLimit := safeLimit, maxHr := maxHr, alerts := st3.alerts,
    recommendations := st3.recommendations,
    nextCheckMinutes := suggest_next_hr_check st3.riskLevel }

end Safety

/-- Round-half-even of the exact rational `n / d` (d > 0).  Python's `round`
applied to the corresponding float expressions in `heart_rate_calculator.py`
agrees with this exact rounding on the whole verified integer domain
(denominators 10 and 100, numerators as produced below). -/
def roundHalfEven (n d : Nat) : Nat :=
  let q := n / d
  let r := n % d
  if 2 * r < d then q
  else if 2 * r > d then q + 1
  else if q % 2 = 0 then q else q + 1

namespace HRCalc

/-- `ZoneMethod` enum from `tools/heart_rate_calculator.py`. -/
inductive ZoneMethod
  | karvonen
  | max_hr_percentage
  | maffetone
deriving DecidableEq, Repr

/-- A `HeartRateZone` dataclass record (static description strings, benefit
lists and exertion ranges are carried by `name` and `percentageRange`; the
remaining static metadata plays no role in any claim). -/
structure HeartRateZone where
  zoneNumber : Nat
  name : String
  minBpm : Nat
  maxBpm : Nat
  percentageRange : Nat × Nat
deriving DecidableEq, Repr

/-- The zone definitions table of `HeartRateCalculator.__init__`:
zone number, name, and percent band. -/
def zoneDefinitions : List (Nat × String × Nat × Nat) :=
  [(1, "Recuperação Ativa", 50, 60),
   (2, "Aeróbica Base", 60, 70),
   (3, "Aeróbica Intensa", 70, 80),
   (4, "Limiar Anaeróbico", 80, 90),
   (5, "VO2 Máximo", 90, 100)]

/-- `calculate_max_heart_rate(age)` with the default method `"tanaka"`:
`round(208 - 0.7*age)` = round-half-even of `(2080 - 7*age)/10`. -/
def calculate_max_heart_rate (age : Nat) : Nat :=
  roundHalfEven (2080 - 7 * age) 10

/-- `calculate_target_heart_rate(hr_reserve, resting_hr, i_min, i_max)`:
`round(resting_hr + hr_reserve * i / 100)` for each bound. -/
def calculate_target_heart_rate (hrReserve restingHr iMin iMax : Nat) : Nat × Nat :=
  (roundHalfEven (100 * restingHr + hrReserve * iMin) 100,
   roundHalfEven (100 * restingHr + hrReserve * iMax) 100)

/-- The `HeartRateAnalysis` dataclass (recommendation and safety-note strings,
functions of `age` and `resting_hr` only, are not modelled). -/
structure HeartRateAnalysis where
  userAge : Nat
  restingHr : Nat
  maxHrEstimated : Nat
  hrReserve : Nat
  zones : List HeartRateZone
  methodUsed : ZoneMethod
deriving DecidableEq, Repr

/-- Validation failures of `HeartRateCalculator.calculate_zones` (raised as
`ValueError` with distinct messages in the source). -/
inductive ZoneCalcError
  | invalidAge
  | invalidRestingHr
deriving DecidableEq, Repr

/-- One zone record built inside the `calculate_zones` loop. -/
def mkZone (maxHr hrReserve restingHr : Nat) (method : ZoneMethod)
    (zd : Nat × String × Nat × Nat) : HeartRateZone :=
  let (num, name, iMin, iMax) := zd
  let bounds :=
    match method with
    | .max_hr_percentage => (roundHalfEven (maxHr * iMin) 100, roundHalfEven (maxHr * iMax) 100)
    | _ => calculate_target_heart_rate hrReserve restingHr iMin iMax
  { zoneNumber := num, name := name, minBpm := bounds.1, maxBpm := bounds.2,
    percentageRange := (iMin, iMax) }

/-- `HeartRateCalculator.calculate_zones(age, resting_hr, method)` from
`tools/heart_rate_calculator.py`: validates the inputs, computes the Tanaka
max HR (the default of `calculate_max_heart_rate`) and the heart-rate
reserve, and builds the five zones (Karvonen for the default and the
`maffetone` fall-through, percent-of-max otherwise). -/
def calculate_zones (age restingHr : Nat) (method : ZoneMethod) :
    Except ZoneCalcError HeartRateAnalysis :=
  if ¬ (13 ≤ age ∧ age ≤ 100) then .error .invalidAge
  else if ¬ (30 ≤ restingHr ∧ restingHr ≤ 120) then .error .invalidRestingHr
  else
    let maxHr := calculate_max_heart_rate age
    let hrReserve := maxHr - restingHr
    .ok { userAge := age, restingHr := restingHr, maxHrEstimated := maxHr,
          hrReserve := hrReserve,
          zones := zoneDefinitions.map (mkZone maxHr hrReserve restingHr method),
          methodUsed := method }

end HRCalc

namespace Calc

/-- Method selector of `utils/calculations.py::calculate_heart_rate_zones`.
The Python argument is a free-form string: `"karvonen"` selects the Karvonen
zone table, `"tanaka"` the Tanaka max-HR formula with the percent-of-max
table, and every other string (the documented `"percentage"` included)
the classic max-HR formula with the percent-of-max table. -/
inductive CalcMethod
  | karvonen
  | percentage
  | tanaka
deriving DecidableEq, Repr

/-- One zone dict of the `zones` mapping in `calculate_heart_rate_zones`
(the static description and benefit strings play no role in any claim). -/
structure CZone where
  name : String
  lower : Nat
  upper : Nat
  intensity : String
deriving DecidableEq, Repr

/-- The `zones` dict: the five entries `zona_1` … `zona_5` in insertion
order. -/
structure CZoneTable where
  zona1 : CZone
  zona2 : CZone
  zona3 : CZone
  zona4 : CZone
  zona5 : CZone
deriving DecidableEq, Repr

/-- The dict returned by `calculate_heart_rate_zones`. -/
structure CZonesResult where
  maxHr : Nat
  restingHr : Nat
  hrReserve : Nat
  method : CalcMethod
  zones : CZoneTable
deriving DecidableEq, Repr

/-- `int(208 - 0.7*age)`: float truncation, equal to `(2080 - 7*age) / 10`
on the whole verified domain. -/
def tanakaMaxTrunc (age : Nat) : Nat := (2080 - 7 * age) / 10

/-- Python `int(max_hr * p)` for `p = k/10` as evaluated on floats: equal to
`max_hr * k / 10` except for the two float-truncation artifacts
`int(170 * 0.7) = 118` and `int(180 * 0.7) = 125` (checked exhaustively for
`100 ≤ max_hr ≤ 220`, `5 ≤ k ≤ 9`). -/
def pyTruncMulTenth (m k : Nat) : Nat :=
  if k = 7 ∧ (m = 170 ∨ m = 180) then m * 7 / 10 - 1 else m * k / 10

/-- `int(resting_hr + hr_reserve * p)` for `p = k/10` as evaluated on floats:
agrees with `(10*resting_hr + reserve*k) / 10` on the whole verified domain
(`30 ≤ resting_hr ≤ 120`, `0 ≤ reserve ≤ 179`). -/
def karvonenBound (restingHr reserve k : Nat) : Nat :=
  (10 * restingHr + reserve * k) / 10

/-- `utils/calculations.py::calculate_heart_rate_zones(age, resting_hr,
method)`.  Inside the claims' domain (`13 ≤ age ≤ 100`,
`30 ≤ resting_hr ≤ 120`) the heart-rate reserve is non-negative, so the `Nat`
subtraction below matches the Python `int` subtraction. -/
def calculate_heart_rate_zones (age restingHr : Nat) (method : CalcMethod) : CZonesResult :=
  let maxHr := if method = .tanaka then tanakaMaxTrunc age else 220 - age
  let reserve := maxHr - restingHr
  let zones : CZoneTable :=
    if method = .karvonen then
      { zona1 := ⟨"Recuperação Ativa", karvonenBound restingHr reserve 5,
          karvonenBound restingHr reserve 6, "muito_baixa"⟩,
        zona2 := ⟨"Base Aeróbica", karvonenBound restingHr reserve 6,
          karvonenBound restingHr reserve 7, "baixa"⟩,
        zona3 := ⟨"Aeróbica", karvonenBound restingHr reserve 7,
          karvonenBound restingHr reserve 8, "moderada"⟩,
        zona4 := ⟨"Limiar Anaeróbico", karvonenBound restingHr reserve 8,
          karvonenBound restingHr reserve 9, "alta"⟩,
        zona5 := ⟨"VO2 Max", karvonenBound restingHr reserve 9, maxHr, "maxima"⟩ }
    else
      { zona1 := ⟨"Recuperação Ativa", pyTruncMulTenth maxHr 5, pyTruncMulTenth maxHr 6,
          "muito_baixa"⟩,
        zona2 := ⟨"Base Aeróbica", pyTruncMulTenth maxHr 6, pyTruncMulTenth maxHr 7, "baixa"⟩,
        zona3 := ⟨"Aeróbica", pyTruncMulTenth maxHr 7, pyTruncMulTenth maxHr 8, "moderada"⟩,
        zona4 := ⟨"Limiar Anaeróbico", pyTruncMulTenth maxHr 8, pyTruncMulTenth maxHr 9, "alta"⟩,
        zona5 := ⟨"VO2 Max", pyTruncMulTenth maxHr 9, maxHr, "maxima"⟩ }
  { maxHr := maxHr, restingHr := restingHr, hrReserve := reserve, method := method,
    zones := zones }

/-- The seven possible outcomes of `determine_heart_rate_zone`: the `zone_id`
entry of the returned dict. -/
inductive ZoneOutcome
  | zona1
  | zona2
  | zona3
  | zona4
  | zona5
  | belowZone1
  | aboveZone5
deriving DecidableEq, Repr

/-- Membership test `zone_info["lower"] <= current_hr <= zone_info["upper"]`. -/
def inCZone (hr : Nat) (z : CZone) : Bool :=
  decide (z.lower ≤ hr ∧ hr ≤ z.upper)

/-- `utils/calculations.py::determine_heart_rate_zone(current_hr, zones)`:
first ascending match over the dict (insertion order `zona_1` … `zona_5`),
then the below/above fallbacks. -/
def determine_heart_rate_zone (hr : Nat) (t : CZoneTable) : ZoneOutcome :=
  if inCZone hr t.zona1 then .zona1
  else if inCZone hr t.zona2 then .zona2
  else if inCZone hr t.zona3 then .zona3
  else if inCZone hr t.zona4 then .zona4
  else if inCZone hr t.zona5 then .zona5
  else if hr < t.zona1.lower then .belowZone1
  else .aboveZone5

/-- The `intensity` entry of the dict `determine_heart_rate_zone` returns:
the matched zone's intensity, `"repouso"` below the table, `"perigosa"`
above it. -/
def zoneOutcomeIntensity (hr : Nat) (t : CZoneTable) : String :=
  match determine_heart_rate_zone hr t with
  | .zona1 => t.zona1.intensity
  | .zona2 => t.zona2.intensity
  | .zona3 => t.zona3.intensity
  | .zona4 => t.zona4.intensity
  | .zona5 => t.zona5.intensity
  | .belowZone1 => "repouso"
  | .aboveZone5 => "perigosa"

/-- The `zone_name` entry of the dict `determine_heart_rate_zone` returns. -/
def zoneOutcomeName (hr : Nat) (t : CZoneTable) : String :=
  match determine_heart_rate_zone hr t with
  | .zona1 => t.zona1.name
  | .zona2 => t.zona2.name
  | .zona3 => t.zona3.name
  | .zona4 => t.zona4.name
  | .zona5 => t.zona5.name
  | .belowZone1 => "Abaixo da Zona 1"
  | .aboveZone5 => "Acima da Zona 5"

end Calc

namespace ExMgr

/-- An exercise record as consumed by `tools/exercise_manager.py` (its
`type.value`, `difficulty_level.value`, `duration_range` and `muscle_groups`
fields; descriptive strings and the calories map only feed display fields of
the selection output and are not modelled). -/
structure Exercise where
  id : Nat
  name : String
  exType : String
  difficulty : String
  minDuration : Nat
  maxDuration : Nat
  muscleGroups : List String
deriving DecidableEq, Repr

/-- The `difficulty_mapping` dict of `_is_suitable_difficulty`, with its
`.get` default. -/
def difficultyMapping (fitnessLevel : String) : List String :=
  if fitnessLevel = "beginner" then ["very_low", "low"]
  else if fitnessLevel = "intermediate" then ["low", "moderate"]
  else if fitnessLevel = "advanced" then ["moderate", "high", "very_high"]
  else ["low", "moderate"]

/-- `_is_suitable_difficulty(exercise, fitness_level)`. -/
def is_suitable_difficulty (ex : Exercise) (fitnessLevel : String) : Bool :=
  (difficultyMapping fitnessLevel).contains ex.difficulty

/-- The score computed in `_select_exercises`: +10 when the exercise type is
among the user's preference values, +5 per muscle-group entry equal to
`"core"` or `"legs"`. -/
def exerciseScore (prefs : List String) (ex : Exercise) : Nat :=
  (if prefs.contains ex.exType then 10 else 0) +
    5 * ex.muscleGroups.countP (fun m => m == "core" || m == "legs")

/-- Insert a scored exercise into a descending-sorted list, after every
strictly higher score and before equal or lower scores. -/
def insertScoredDesc {α : Type} (x : Nat × α) : List (Nat × α) → List (Nat × α)
  | [] => [x]
  | y :: ys => if x.1 < y.1 then y :: insertScoredDesc x ys else x :: y :: ys

/-- Stable descending sort by score, embedding
`scored_exercises.sort(key=lambda x: x[0], reverse=True)`: Python's sort is
stable, and the output of a stable descending sort is uniquely determined by
the input order (proved below for this implementation), so this insertion
sort is extensionally the Python sort. -/
def sortScoredDesc {α : Type} : List (Nat × α) → List (Nat × α)
  | [] => []
  | x :: xs => insertScoredDesc x (sortScoredDesc xs)

/-- The greedy consumption loop of `_select_exercises`, one step per scored
candidate: stop as soon as the used duration has reached the budget
(`total_duration` may be negative when a mixed session over-consumed its
cardio share, hence `Int`); otherwise allocate
`min(min_duration, remaining, 15)` in a high-intensity (`"alta"`) zone and
`min(max_duration, remaining, 30)` otherwise, dropping the candidate when the
allocation falls below its minimum duration. -/
def selectLoop (zoneIntensity : String) :
    List (Nat × Exercise) → Int → Nat → List (Exercise × Nat)
  | [], _, _ => []
  | (_, ex) :: rest, totalDuration, usedDuration =>
    if totalDuration ≤ (usedDuration : Int) then []
    else
      let remainingTime := (totalDuration - (usedDuration : Int)).toNat
      let recommendedDuration :=
        if zoneIntensity = "alta" then min (min ex.minDuration remainingTime) 15
        else min (min ex.maxDuration remainingTime) 30
      if ex.minDuration ≤ recommendedDuration then
        (ex, recommendedDuration) ::
          selectLoop zoneIntensity rest totalDuration (usedDuration + recommendedDuration)
      else
        selectLoop zoneIntensity rest totalDuration usedDuration

/-- `_select_exercises(exercises, total_duration, user, current_zone)`,
returning the selected (exercise, recommended_duration) pairs. -/
def select_exercises (pool : List Exercise) (totalDuration : Int) (prefs : List String)
    (zoneIntensity : String) : List (Exercise × Nat) :=
  selectLoop zoneIntensity
    (sortScoredDesc (pool.map (fun ex => (exerciseScore prefs ex, ex))))
    totalDuration 0

/-- Sum of the allocated minutes of a selection. -/
def sumAlloc (l : List (Exercise × Nat)) : Nat := (l.map (·.2)).sum

/-- The per-type duration budget of `_generate_exercise_recommendations`:
the cardio share `int(x * 0.6)` (which agrees with `x * 3 / 5` for the
non-negative operands that reach it) is only read in the `"mixed"` branch;
the remaining (possibly negative) duration is used as-is otherwise. -/
def type_duration (remainingDuration : Int) (sessionDuration : Nat)
    (workoutType exType : String) : Int :=
  if exType = "cardio" then
    if workoutType = "mixed" then ((remainingDuration.toNat * 3 / 5 : Nat) : Int)
    else remainingDuration
  else
    if workoutType = "mixed" then
      remainingDuration - ((sessionDuration * 3 / 5 : Nat) : Int)
    else remainingDuration

/-- One iteration of the per-type loop of `_generate_exercise_recommendations`
(state: remaining duration and accumulated recommendations).  `pool` stands
for the equipment-filtered repository result (the `get_exercises_by_type`
result is fetched but discarded by the source). -/
def recTypeStep (pool : List Exercise) (fitnessLevel : String) (prefs : List String)
    (zoneIntensity : String) (sessionDuration : Nat) (workoutType : String)
    (st : Int × List (Exercise × Nat)) (exType : String) : Int × List (Exercise × Nat) :=
  let suitable := pool.filter
    (fun ex => ex.exType == exType && is_suitable_difficulty ex fitnessLevel)
  if suitable.isEmpty then st
  else
    let sel := select_exercises suitable
      (type_duration st.1 sessionDuration workoutType exType) prefs zoneIntensity
    (st.1 - (sumAlloc sel : Int), st.2 ++ sel)

/-- `_generate_exercise_recommendations(user, current_zone, session_duration,
workout_type, available_equipment)`: the per-type loop over the exercise
types determined by `workout_type` (the 0.5 and 1.0 cardio shares of the
non-mixed branches are dead values in the source: the share is only read in
the `"mixed"` branch). -/
def generate_exercise_recommendations (pool : List Exercise) (fitnessLevel : String)
    (prefs : List String) (zoneIntensity : String) (sessionDuration : Nat)
    (workoutType : String) : List (Exercise × Nat) :=
  let exerciseTypes :=
    if workoutType = "mixed" then ["cardio", "strength"]
    else if workoutType = "cardio" then ["cardio"]
    else if workoutType = "strength" then ["strength"]
    else ["cardio", "strength"]
  (exerciseTypes.foldl
    (recTypeStep pool fitnessLevel prefs zoneIntensity sessionDuration workoutType)
    ((sessionDuration : Int), [])).2

/-- `_estimate_resting_hr(age, fitness_level)`.  Only called with the three
enum values, so the dict default 70 is unreachable. -/
def estimate_resting_hr (age : Nat) (fl : FitnessLevel) : Nat :=
  let base : Nat :=
    match fl with
    | .beginner => 75
    | .intermediate => 65
    | .advanced => 55
  if age > 60 then base + 8
  else if age > 40 then base + 5
  else if age < 25 then base - 5
  else base

/-- The user profile fields consumed by `recommend_exercises`. -/
structure UserLite where
  age : Nat
  fitnessLevel : FitnessLevel
  healthConditions : List HealthCondition
  restingHeartRate : Option Nat
  preferences : List String
deriving DecidableEq, Repr

/-- The response of `recommend_exercises` once the user lookup succeeded:
either the unsafe-HR warning or the recommendation payload (the wall-clock
`generated_at` timestamp and static framing strings are not modelled). -/
inductive RecommendResult
  | warning (safetyAlerts : List String)
  | success (currentZoneName : String) (recommendations : List (Exercise × Nat))
deriving DecidableEq, Repr

/-- `ExerciseManager.recommend_exercises(user_id, current_hr,
session_duration, workout_type, available_equipment)` after the user fetch,
with the user profile and the equipment-filtered exercise pool passed
explicitly in place of the repository lookups.  `user.resting_heart_rate or
estimate` is Python truthiness: `None` and `0` both fall back to the
estimate. -/
def recommend_exercises (user : UserLite) (currentHr sessionDuration : Nat)
    (workoutType : String) (pool : List Exercise) : RecommendResult :=
  let safetyCheck := Safety.check_heart_rate_safety currentHr user.age
    user.fitnessLevel user.healthConditions
  if safetyCheck.safe = false then .warning safetyCheck.alerts
  else
    let restingHr :=
      match user.restingHeartRate with
      | some r => if r = 0 then estimate_resting_hr user.age user.fitnessLevel else r
      | none => estimate_resting_hr user.age user.fitnessLevel
    let hrZones := Calc.calculate_heart_rate_zones user.age restingHr .karvonen
    let zoneName := Calc.zoneOutcomeName currentHr hrZones.zones
    let intensity := Calc.zoneOutcomeIntensity currentHr hrZones.zones
    .success zoneName
      (generate_exercise_recommendations pool user.fitnessLevel.value user.preferences
        intensity sessionDuration workoutType)

end ExMgr

/-! ## Helper lemmas -/

namespace Safety

/-- Whether some condition in the list produces a non-empty alert. -/
def firedAny (currentHr maxHr : Nat) (conds : List HealthCondition) : Bool :=
  conds.any (fun c => !(check_hr_condition_specific currentHr maxHr c).isEmpty)

theorem foldl_conditionStep_eq (currentHr maxHr : Nat) (conds : List HealthCondition)
    (st : SafetyState) :
    conds.foldl (conditionStep currentHr maxHr) st =
      { isSafe := if firedAny currentHr maxHr conds then false else st.isSafe,
        riskLevel := if firedAny currentHr maxHr conds then .high else st.riskLevel,
        alerts := st.alerts ++ conds.flatMap (check_hr_condition_specific currentHr maxHr),
        recommendations := st.recommendations } := by
  induction conds generalizing st with
  | nil => simp [firedAny]
  | cons c cs ih =>
    rw [List.foldl_cons, ih]
    by_cases h : (check_hr_condition_specific currentHr maxHr c).isEmpty
    · simp [conditionStep, firedAny, h, List.isEmpty_iff.mp h]
    · simp [conditionStep, firedAny, h]

theorem flatMap_filter_of_empty {p : HealthCondition → Bool}
    (f : HealthCondition → List String) (h : ∀ c, p c = false → f c = [])
    (conds : List HealthCondition) :
    (conds.filter p).flatMap f = conds.flatMap f := by
  induction conds with
  | nil => rfl
  | cons c cs ih =>
    by_cases hc : p c
    · simp [List.filter_cons, hc, ih]
    · simp only [Bool.not_eq_true] at hc
      simp [List.filter_cons, hc, ih, h c hc]

theorem firedAny_filter_of_empty {p : HealthCondition → Bool} (currentHr maxHr : Nat)
    (h : ∀ c, p c = false → check_hr_condition_specific currentHr maxHr c = [])
    (conds : List HealthCondition) :
    firedAny currentHr maxHr (conds.filter p) = firedAny currentHr maxHr conds := by
  induction conds with
  | nil => rfl
  | cons c cs ih =>
    by_cases hc : p c
    · simp [firedAny, List.filter_cons, hc] at ih ⊢
      rw [ih]
    · simp only [Bool.not_eq_true] at hc
      simp [firedAny, List.filter_cons, hc, h c hc] at ih ⊢
      exact ih

theorem firedAny_eq_false_iff (currentHr maxHr : Nat) (conds : List HealthCondition) :
    firedAny currentHr maxHr conds = false ↔
      ∀ c ∈ conds, check_hr_condition_specific currentHr maxHr c = [] := by
  simp [firedAny, List.any_eq_false, List.isEmpty_iff]

theorem check_safe_eq (currentHr age : Nat) (fl : FitnessLevel)
    (conds : List HealthCondition) :
    (check_heart_rate_safety currentHr age fl conds).safe =
      (if firedAny currentHr (220 - age) conds then false
       else (base_verdict currentHr (220 - age)
          ((220 - age) * safetyLimitPct fl / 100)).isSafe) := by
  simp only [check_heart_rate_safety, foldl_conditionStep_eq]
  split <;> rfl

theorem check_risk_eq (currentHr age : Nat) (fl : FitnessLevel)
    (conds : List HealthCondition) :
    (check_heart_rate_safety currentHr age fl conds).riskLevel =
      (if firedAny currentHr (220 - age) conds then .high
       else (base_verdict currentHr (220 - age)
          ((220 - age) * safetyLimitPct fl / 100)).riskLevel) := by
  simp only [check_heart_rate_safety, foldl_conditionStep_eq]
  split <;> rfl

theorem check_alerts_eq (currentHr age : Nat) (fl : FitnessLevel)
    (conds : List HealthCondition) :
    (check_heart_rate_safety currentHr age fl conds).alerts =
      (base_verdict currentHr (220 - age)
          ((220 - age) * safetyLimitPct fl / 100)).alerts ++
        conds.flatMap (check_hr_condition_specific currentHr (220 - age)) ++
        (if currentHr < 50 then
          ["FC muito baixa - Verifique se está se exercitando adequadamente"]
         else []) := by
  simp only [check_heart_rate_safety, foldl_conditionStep_eq]
  split <;> simp

theorem check_recommendations_eq (currentHr age : Nat) (fl : FitnessLevel)
    (conds : List HealthCondition) :
    (check_heart_rate_safety currentHr age fl conds).recommendations =
      (base_verdict currentHr (220 - age)
          ((220 - age) * safetyLimitPct fl / 100)).recommendations ++
        (if currentHr < 50 then ["Aumente gradualmente a intensidade"] else []) := by
  simp only [check_heart_rate_safety, foldl_conditionStep_eq]
  split <;> simp

theorem check_nextCheck_eq (currentHr age : Nat) (fl : FitnessLevel)
    (conds : List HealthCondition) :
    (check_heart_rate_safety currentHr age fl conds).nextCheckMinutes =
      suggest_next_hr_check (check_heart_rate_safety currentHr age fl conds).riskLevel := by
  simp only [check_heart_rate_safety, foldl_conditionStep_eq]

theorem base_verdict_of_crit (currentHr maxHr safeLimit : Nat)
    (h95 : 20 * currentHr > 19 * maxHr) :
    base_verdict currentHr maxHr safeLimit =
      { isSafe := false, riskLevel := .critical,
        alerts := ["FC extremamente alta - PARE o exercício imediatamente"],
        recommendations :=
          ["Sente-se e descanse", "Busque ajuda médica se não melhorar em 5 minutos"] } := by
  simp [base_verdict, h95]

theorem check_hr_condition_specific_of_ne_nil (currentHr maxHr : Nat) (c : HealthCondition)
    (h : check_hr_condition_specific currentHr maxHr c ≠ []) :
    check_hr_condition_specific currentHr maxHr c = [conditionMessage c] := by
  unfold check_hr_condition_specific at h ⊢
  cases hc : conditionThreshold c
  · simp [hc] at h
  · simp only [hc] at h ⊢
    split at h
    · simp_all
    · simp_all

end Safety

/-! ## Claims about the safety evaluator -/

/-- Claim C1, corrected statement.  When `currentHR > 0.95·maxHR` (the float
guard, equal to `20·hr > 19·maxHR` on the verified domain),
`check_heart_rate_safety` always returns `safe = false`; the risk level is
`critical` exactly when no present health condition's percent-of-max
threshold is breached, and `high` otherwise — a breached condition overwrites
the critical base verdict. -/
theorem claim_C1 (currentHr age : Nat) (fl : FitnessLevel) (conds : List HealthCondition)
    (hage₁ : 13 ≤ age) (hage₂ : age ≤ 120) (hhr : currentHr ≤ 400)
    (h95 : 20 * currentHr > 19 * (220 - age)) :
    (Safety.check_heart_rate_safety currentHr age fl conds).safe = false ∧
    ((Safety.check_heart_rate_safety currentHr age fl conds).riskLevel = .critical ∨
      (Safety.check_heart_rate_safety currentHr age fl conds).riskLevel = .high) ∧
    ((Safety.check_heart_rate_safety currentHr age fl conds).riskLevel = .critical ↔
      ∀ c ∈ conds, Safety.check_hr_condition_specific currentHr (220 - age) c = []) := by
  rw [Safety.check_safe_eq, Safety.check_risk_eq,
    Safety.base_verdict_of_crit currentHr (220 - age) _ h95]
  rw [← Safety.firedAny_eq_false_iff currentHr (220 - age) conds]
  cases hf : Safety.firedAny currentHr (220 - age) conds <;> simp [hf]

/-- Witness for C1 at a concrete input. -/
theorem claim_C1_witness :
    (Safety.check_heart_rate_safety 200 20 .intermediate [.heart_disease]).safe = false ∧
    ((Safety.check_heart_rate_safety 200 20 .intermediate [.heart_disease]).riskLevel = .critical ∨
      (Safety.check_heart_rate_safety 200 20 .intermediate [.heart_disease]).riskLevel = .high) ∧
    ((Safety.check_heart_rate_safety 200 20 .intermediate [.heart_disease]).riskLevel = .critical ↔
      ∀ c ∈ [HealthCondition.heart_disease],
        Safety.check_hr_condition_specific 200 (220 - 20) c = []) :=
  claim_C1 200 20 .intermediate [.heart_disease] (by decide) (by decide) (by decide) (by decide)

/-- Counterexample to claim C1 as stated: at currentHR = 200, age = 20
(maxHR = 200, so 200 > 0.95·200) with heart_disease present, the verdict is
unsafe but its risk level is `high`, not `critical`. -/
theorem claim_C1_counterexample :
    20 * 200 > 19 * (220 - 20) ∧
    (Safety.check_heart_rate_safety 200 20 .intermediate [.heart_disease]).safe = false ∧
    (Safety.check_heart_rate_safety 200 20 .intermediate [.heart_disease]).riskLevel ≠
      RiskLevel.critical := by
  refine ⟨by decide, by decide, by decide⟩

/-- Claim C2, corrected statement.  When a present health condition's
percent-of-max threshold is breached, `check_heart_rate_safety` returns
`safe = false`, sets the risk level to exactly `high` — overriding the base
verdict in both directions, so a `critical` base verdict is de-escalated to
`high` — and the condition-specific alert appears in the alert list. -/
theorem claim_C2 (currentHr age : Nat) (fl : FitnessLevel) (conds : List HealthCondition)
    (c : HealthCondition) (hage₁ : 13 ≤ age) (hage₂ : age ≤ 120) (hhr : currentHr ≤ 400)
    (hc : c ∈ conds)
    (hbreach : Safety.check_hr_condition_specific currentHr (220 - age) c ≠ []) :
    (Safety.check_heart_rate_safety currentHr age fl conds).safe = false ∧
    (Safety.check_heart_rate_safety currentHr age fl conds).riskLevel = .high ∧
    Safety.conditionMessage c ∈ (Safety.check_heart_rate_safety currentHr age fl conds).alerts := by
  have hfired : Safety.firedAny currentHr (220 - age) conds = true := by
    simp only [Safety.firedAny, List.any_eq_true, Bool.not_eq_true', List.isEmpty_eq_false]
    exact ⟨c, hc, hbreach⟩
  refine ⟨?_, ?_, ?_⟩
  · rw [Safety.check_safe_eq, hfired, if_pos rfl]
  · rw [Safety.check_risk_eq, hfired, if_pos rfl]
  · rw [Safety.check_alerts_eq]
    have hmem : Safety.conditionMessage c ∈
        conds.flatMap (Safety.check_hr_condition_specific currentHr (220 - age)) := by
      rw [List.mem_flatMap]
      exact ⟨c, hc, by
        rw [Safety.check_hr_condition_specific_of_ne_nil currentHr (220 - age) c hbreach]
        exact List.mem_singleton.mpr rfl⟩
    exact List.mem_append_left _ (List.mem_append_right _ hmem)

/-- Witness for C2 at a concrete input. -/
theorem claim_C2_witness :
    (Safety.check_heart_rate_safety 210 15 .beginner [.hypertension]).safe = false ∧
    (Safety.check_heart_rate_safety 210 15 .beginner [.hypertension]).riskLevel = .high ∧
    Safety.conditionMessage .hypertension ∈
      (Safety.check_heart_rate_safety 210 15 .beginner [.hypertension]).alerts :=
  claim_C2 210 15 .beginner [.hypertension] .hypertension (by decide) (by decide) (by decide)
    (by decide) (by decide)

/-- Counterexample to claim C2 as stated: at currentHR = 210, age = 15 the
base verdict is critical (210 > 0.95·205) and hypertension's 80% threshold
is breached, yet the final risk level is `high`: the critical base verdict is
de-escalated by the condition processing. -/
theorem claim_C2_counterexample :
    20 * 210 > 19 * (220 - 15) ∧
    Safety.check_hr_condition_specific 210 (220 - 15) .hypertension ≠ [] ∧
    (Safety.check_heart_rate_safety 210 15 .beginner [.hypertension]).riskLevel ≠
      RiskLevel.critical := by
  refine ⟨by decide, by decide, by decide⟩

/-- Claim C10, confirmed.  Removing arthritis and pregnancy from the
condition list never changes the verdict of `check_heart_rate_safety`: both
conditions have no entry in the condition-threshold table, so they produce no
alert and no risk escalation. -/
theorem claim_C10 (currentHr age : Nat) (fl : FitnessLevel) (conds : List HealthCondition) :
    Safety.check_heart_rate_safety currentHr age fl
      (conds.filter (fun c => !(c == .arthritis || c == .pregnancy))) =
    Safety.check_heart_rate_safety currentHr age fl conds := by
  have hneutral : ∀ c : HealthCondition,
      (!(c == HealthCondition.arthritis || c == HealthCondition.pregnancy)) = false →
      Safety.check_hr_condition_specific currentHr (220 - age) c = [] := by
    intro c h
    cases c <;> simp_all <;> rfl
  have hfired := Safety.firedAny_filter_of_empty currentHr (220 - age) hneutral conds
  have hflat := Safety.flatMap_filter_of_empty
    (Safety.check_hr_condition_specific currentHr (220 - age)) hneutral conds
  have hrisk : (Safety.check_heart_rate_safety currentHr age fl
        (conds.filter (fun c => !(c == .arthritis || c == .pregnancy)))).riskLevel =
      (Safety.check_heart_rate_safety currentHr age fl conds).riskLevel := by
    rw [Safety.check_risk_eq, Safety.check_risk_eq, hfired]
  ext1
  · rw [Safety.check_safe_eq, Safety.check_safe_eq, hfired]
  · exact hrisk
  · simp [Safety.check_heart_rate_safety, Safety.foldl_conditionStep_eq]
  · simp [Safety.check_heart_rate_safety, Safety.foldl_conditionStep_eq]
  · simp [Safety.check_heart_rate_safety, Safety.foldl_conditionStep_eq]
  · rw [Safety.check_alerts_eq, Safety.check_alerts_eq, hflat]
  · rw [Safety.check_recommendations_eq, Safety.check_recommendations_eq]
  · rw [Safety.check_nextCheck_eq, Safety.check_nextCheck_eq, hrisk]

/-! ## Claims about the zone calculator -/

theorem roundHalfEven_lt_of_add (a b : Nat) (h : a + 101 ≤ b) :
    roundHalfEven a 100 < roundHalfEven b 100 := by
  simp only [roundHalfEven]
  split_ifs <;> omega

theorem roundHalfEven_le_of_le (a b : Nat) (h : a ≤ b) :
    roundHalfEven a 100 ≤ roundHalfEven b 100 := by
  simp only [roundHalfEven]
  split_ifs <;> omega

theorem roundHalfEven_hundred_mul (k : Nat) : roundHalfEven (k * 100) 100 = k := by
  simp only [roundHalfEven]
  split_ifs <;> omega

theorem tanaka_max_ge (age : Nat) (h : age ≤ 100) :
    138 ≤ HRCalc.calculate_max_heart_rate age := by
  simp only [HRCalc.calculate_max_heart_rate, roundHalfEven]
  split_ifs <;> omega

theorem tanaka_max_le (age : Nat) (h : 13 ≤ age) :
    HRCalc.calculate_max_heart_rate age ≤ 199 := by
  simp only [HRCalc.calculate_max_heart_rate, roundHalfEven]
  split_ifs <;> omega

theorem karvonen_target_strict (r R i j : Nat) (hR : 11 ≤ R) (hij : i + 10 ≤ j) :
    roundHalfEven (100 * r + R * i) 100 < roundHalfEven (100 * r + R * j) 100 := by
  apply roundHalfEven_lt_of_add
  have h1 : R * (i + 10) ≤ R * j := Nat.mul_le_mul_left R hij
  have h2 : R * (i + 10) = R * i + R * 10 := Nat.mul_add R i 10
  omega

theorem pct_target_strict (m i j : Nat) (hm : 138 ≤ m) (hij : i + 10 ≤ j) :
    roundHalfEven (m * i) 100 < roundHalfEven (m * j) 100 := by
  apply roundHalfEven_lt_of_add
  have h1 : m * (i + 10) ≤ m * j := Nat.mul_le_mul_left m hij
  have h2 : m * (i + 10) = m * i + m * 10 := Nat.mul_add m i 10
  omega

/-- Claim C4, confirmed.  For every validated input (age in [13,100],
restingHR in [30,120]) and every zone method, `calculate_zones` succeeds with
a five-zone table whose bounds are strictly ascending (each zone's lower
bound below its upper bound), contiguous (each zone's upper bound equals the
next zone's lower bound), and whose fifth zone tops out at the computed
maximum heart rate. -/
theorem claim_C4 (age restingHr : Nat) (method : HRCalc.ZoneMethod)
    (h₁ : 13 ≤ age) (h₂ : age ≤ 100) (h₃ : 30 ≤ restingHr) (h₄ : restingHr ≤ 120) :
    ∃ a z1 z2 z3 z4 z5,
      HRCalc.calculate_zones age restingHr method = .ok a ∧
      a.zones = [z1, z2, z3, z4, z5] ∧
      z1.minBpm < z1.maxBpm ∧ z1.maxBpm = z2.minBpm ∧
      z2.minBpm < z2.maxBpm ∧ z2.maxBpm = z3.minBpm ∧
      z3.minBpm < z3.maxBpm ∧ z3.maxBpm = z4.minBpm ∧
      z4.minBpm < z4.maxBpm ∧ z4.maxBpm = z5.minBpm ∧
      z5.minBpm < z5.maxBpm ∧
      z5.maxBpm = a.maxHrEstimated := by
  have hmax : 138 ≤ HRCalc.calculate_max_heart_rate age := tanaka_max_ge age h₂
  have hres : 11 ≤ HRCalc.calculate_max_heart_rate age - restingHr := by omega
  have hok : HRCalc.calculate_zones age restingHr method =
      .ok { userAge := age, restingHr := restingHr,
            maxHrEstimated := HRCalc.calculate_max_heart_rate age,
            hrReserve := HRCalc.calculate_max_heart_rate age - restingHr,
            zones := HRCalc.zoneDefinitions.map
              (HRCalc.mkZone (HRCalc.calculate_max_heart_rate age)
                (HRCalc.calculate_max_heart_rate age - restingHr) restingHr method),
            methodUsed := method } := by
    unfold HRCalc.calculate_zones
    rw [if_neg (by omega), if_neg (by omega)]
  have hkarvTop : roundHalfEven (100 * restingHr +
      (HRCalc.calculate_max_heart_rate age - restingHr) * 100) 100 =
      HRCalc.calculate_max_heart_rate age := by
    rw [show 100 * restingHr + (HRCalc.calculate_max_heart_rate age - restingHr) * 100 =
        (restingHr + (HRCalc.calculate_max_heart_rate age - restingHr)) * 100 by ring]
    rw [roundHalfEven_hundred_mul]
    omega
  refine ⟨_,
    HRCalc.mkZone (HRCalc.calculate_max_heart_rate age)
      (HRCalc.calculate_max_heart_rate age - restingHr) restingHr method
      (1, "Recuperação Ativa", 50, 60),
    HRCalc.mkZone (HRCalc.calculate_max_heart_rate age)
      (HRCalc.calculate_max_heart_rate age - restingHr) restingHr method
      (2, "Aeróbica Base", 60, 70),
    HRCalc.mkZone (HRCalc.calculate_max_heart_rate age)
      (HRCalc.calculate_max_heart_rate age - restingHr) restingHr method
      (3, "Aeróbica Intensa", 70, 80),
    HRCalc.mkZone (HRCalc.calculate_max_heart_rate age)
      (HRCalc.calculate_max_heart_rate age - restingHr) restingHr method
      (4, "Limiar Anaeróbico", 80, 90),
    HRCalc.mkZone (HRCalc.calculate_max_heart_rate age)
      (HRCalc.calculate_max_heart_rate age - restingHr) restingHr method
      (5, "VO2 Máximo", 90, 100),
    hok, by simp [HRCalc.zoneDefinitions], ?_⟩
  cases method with
  | karvonen =>
    exact ⟨karvonen_target_strict restingHr _ 50 60 hres (by omega), rfl,
      karvonen_target_strict restingHr _ 60 70 hres (by omega), rfl,
      karvonen_target_strict restingHr _ 70 80 hres (by omega), rfl,
      karvonen_target_strict restingHr _ 80 90 hres (by omega), rfl,
      karvonen_target_strict restingHr _ 90 100 hres (by omega), hkarvTop⟩
  | max_hr_percentage =>
    exact ⟨pct_target_strict _ 50 60 hmax (by omega), rfl,
      pct_target_strict _ 60 70 hmax (by omega), rfl,
      pct_target_strict _ 70 80 hmax (by omega), rfl,
      pct_target_strict _ 80 90 hmax (by omega), rfl,
      pct_target_strict _ 90 100 hmax (by omega), roundHalfEven_hundred_mul _⟩
  | maffetone =>
    exact ⟨karvonen_target_strict restingHr _ 50 60 hres (by omega), rfl,
      karvonen_target_strict restingHr _ 60 70 hres (by omega), rfl,
      karvonen_target_strict restingHr _ 70 80 hres (by omega), rfl,
      karvonen_target_strict restingHr _ 80 90 hres (by omega), rfl,
      karvonen_target_strict restingHr _ 90 100 hres (by omega), hkarvTop⟩

/-- Witness for C4 at a concrete input. -/
theorem claim_C4_witness :
    (13 ≤ 28 ∧ 28 ≤ 100 ∧ 30 ≤ 65 ∧ 65 ≤ 120) ∧
    (∃ a z1 z2 z3 z4 z5,
      HRCalc.calculate_zones 28 65 .karvonen = .ok a ∧
      a.zones = [z1, z2, z3, z4, z5] ∧
      z1.minBpm < z1.maxBpm ∧ z1.maxBpm = z2.minBpm ∧
      z2.minBpm < z2.maxBpm ∧ z2.maxBpm = z3.minBpm ∧
      z3.minBpm < z3.maxBpm ∧ z3.maxBpm = z4.minBpm ∧
      z4.minBpm < z4.maxBpm ∧ z4.maxBpm = z5.minBpm ∧
      z5.minBpm < z5.maxBpm ∧
      z5.maxBpm = a.maxHrEstimated) :=
  ⟨by decide, claim_C4 28 65 .karvonen (by decide) (by decide) (by decide) (by decide)⟩

/-- Claim C5, confirmed.  `calculate_zones` fails with the invalid-age error
exactly when age is outside [13,100], fails with the invalid-resting-HR error
exactly when age is in range but restingHR is outside [30,120], and succeeds
exactly when both are in range; no partial output accompanies a failure. -/
theorem claim_C5 (age restingHr : Nat) (method : HRCalc.ZoneMethod) :
    (HRCalc.calculate_zones age restingHr method = .error .invalidAge ↔
      ¬(13 ≤ age ∧ age ≤ 100)) ∧
    (HRCalc.calculate_zones age restingHr method = .error .invalidRestingHr ↔
      ((13 ≤ age ∧ age ≤ 100) ∧ ¬(30 ≤ restingHr ∧ restingHr ≤ 120))) ∧
    ((∃ a, HRCalc.calculate_zones age restingHr method = .ok a) ↔
      ((13 ≤ age ∧ age ≤ 100) ∧ (30 ≤ restingHr ∧ restingHr ≤ 120))) := by
  unfold HRCalc.calculate_zones
  split_ifs with hage hrest <;> simp_all

/-- Claim C9, corrected statement.  For age 28 and restingHR 65 with the
default Tanaka formula, `calculate_zones` yields maxHR 188 and heart-rate
reserve 123, and the Karvonen zone 1 bounds are [126, 139]: Python's
banker's rounding sends 65 + 123·0.50 = 126.5 to 126 and ordinary rounding
sends 65 + 123·0.60 = 138.8 to 139. -/
theorem claim_C9 :
    (HRCalc.calculate_zones 28 65 .karvonen).toOption.map
        (fun a => (a.maxHrEstimated, a.hrReserve)) = some (188, 123) ∧
    ((HRCalc.calculate_zones 28 65 .karvonen).toOption.bind (fun a => a.zones.head?)).map
        (fun z => (z.minBpm, z.maxBpm)) = some (126, 139) := by
  refine ⟨by decide, by decide⟩

/-- Counterexample to claim C9 as stated: the computed Karvonen zone 1 upper
bound for age 28, restingHR 65 is 139, not the claimed 140. -/
theorem claim_C9_counterexample :
    ((HRCalc.calculate_zones 28 65 .karvonen).toOption.bind (fun a => a.zones.head?)).map
        (fun z => z.maxBpm) = some 139 ∧ (139 : Nat) ≠ 140 := by
  refine ⟨by decide, by decide⟩

/-! ## Claims about the zone classifier -/

/-- The classifier contract: each of the seven outcomes of
`determine_heart_rate_zone` is returned exactly under the stated condition —
a zone outcome iff that zone contains the sample and no lower zone does
(first ascending match, so the lower zone wins a shared boundary), the
below-range outcome iff the sample is below zone 1's lower bound, and the
above-range outcome iff it is above zone 5's upper bound. -/
def zoneClassifierSpec (t : Calc.CZoneTable) (hr : Nat) : Prop :=
  (Calc.determine_heart_rate_zone hr t = .belowZone1 ↔ hr < t.zona1.lower) ∧
  (Calc.determine_heart_rate_zone hr t = .aboveZone5 ↔ t.zona5.upper < hr) ∧
  (Calc.determine_heart_rate_zone hr t = .zona1 ↔ Calc.inCZone hr t.zona1 = true) ∧
  (Calc.determine_heart_rate_zone hr t = .zona2 ↔
    (Calc.inCZone hr t.zona2 = true ∧ Calc.inCZone hr t.zona1 = false)) ∧
  (Calc.determine_heart_rate_zone hr t = .zona3 ↔
    (Calc.inCZone hr t.zona3 = true ∧ Calc.inCZone hr t.zona2 = false ∧
      Calc.inCZone hr t.zona1 = false)) ∧
  (Calc.determine_heart_rate_zone hr t = .zona4 ↔
    (Calc.inCZone hr t.zona4 = true ∧ Calc.inCZone hr t.zona3 = false ∧
      Calc.inCZone hr t.zona2 = false ∧ Calc.inCZone hr t.zona1 = false)) ∧
  (Calc.determine_heart_rate_zone hr t = .zona5 ↔
    (Calc.inCZone hr t.zona5 = true ∧ Calc.inCZone hr t.zona4 = false ∧
      Calc.inCZone hr t.zona3 = false ∧ Calc.inCZone hr t.zona2 = false ∧
      Calc.inCZone hr t.zona1 = false))

theorem determine_zone_spec (t : Calc.CZoneTable)
    (h11 : t.zona1.lower ≤ t.zona1.upper) (h12 : t.zona1.upper = t.zona2.lower)
    (h22 : t.zona2.lower ≤ t.zona2.upper) (h23 : t.zona2.upper = t.zona3.lower)
    (h33 : t.zona3.lower ≤ t.zona3.upper) (h34 : t.zona3.upper = t.zona4.lower)
    (h44 : t.zona4.lower ≤ t.zona4.upper) (h45 : t.zona4.upper = t.zona5.lower)
    (h55 : t.zona5.lower ≤ t.zona5.upper) (hr : Nat) :
    zoneClassifierSpec t hr := by
  unfold zoneClassifierSpec Calc.determine_heart_rate_zone
  split_ifs <;>
    simp only [Calc.inCZone, decide_eq_true_eq, Bool.not_eq_true,
      decide_eq_false_iff_not] at * <;>
    simp <;>
    omega

/-- Claim C3, confirmed.  For every validated input to the zone calculator
and every heart-rate sample in [0,300], `determine_heart_rate_zone` returns
exactly one of the seven outcomes (it is a total function into the
seven-constructor `ZoneOutcome` type), the outcome being the unique first
ascending zone containing the sample — the lower zone winning shared
boundaries — below-range exactly when the sample is under zone 1's lower
bound, and above-range exactly when it exceeds zone 5's upper bound. -/
theorem claim_C3 (age restingHr hr : Nat) (method : Calc.CalcMethod)
    (h₁ : 13 ≤ age) (h₂ : age ≤ 100) (h₃ : 30 ≤ restingHr) (h₄ : restingHr ≤ 120)
    (hhr : hr ≤ 300) :
    zoneClassifierSpec (Calc.calculate_heart_rate_zones age restingHr method).zones hr := by
  apply determine_zone_spec <;>
    cases method <;>
      simp [Calc.calculate_heart_rate_zones, Calc.karvonenBound, Calc.pyTruncMulTenth,
        Calc.tanakaMaxTrunc] <;>
      first
        | omega
        | (split_ifs <;> omega)

/-- Witness for C3 at a concrete input. -/
theorem claim_C3_witness :
    (13 ≤ 30 ∧ 30 ≤ 100 ∧ 30 ≤ 60 ∧ 60 ≤ 120 ∧ 138 ≤ 300) ∧
    zoneClassifierSpec (Calc.calculate_heart_rate_zones 30 60 .karvonen).zones 138 :=
  ⟨by decide,
    claim_C3 30 60 138 .karvonen (by decide) (by decide) (by decide) (by decide) (by decide)⟩

/-! ## Claims about the exercise selector -/

namespace ExMgr

theorem sumAlloc_nil : sumAlloc [] = 0 := rfl

theorem sumAlloc_cons (p : Exercise × Nat) (l : List (Exercise × Nat)) :
    sumAlloc (p :: l) = p.2 + sumAlloc l := by
  simp [sumAlloc]

theorem sumAlloc_append (l₁ l₂ : List (Exercise × Nat)) :
    sumAlloc (l₁ ++ l₂) = sumAlloc l₁ + sumAlloc l₂ := by
  simp [sumAlloc]

theorem sumAlloc_selectLoop_le (zi : String) (l : List (Nat × Exercise)) :
    ∀ (total : Int) (used : Nat),
      sumAlloc (selectLoop zi l total used) ≤ (total - (used : Int)).toNat := by
  induction l with
  | nil =>
    intro total used
    simp [selectLoop, sumAlloc]
  | cons x rest ih =>
    intro total used
    obtain ⟨s, ex⟩ := x
    simp only [selectLoop]
    by_cases h1 : total ≤ (used : Int)
    · simp [h1, sumAlloc]
    · simp only [if_neg h1]
      by_cases hzi : zi = "alta"
      · simp only [if_pos hzi]
        by_cases h2 : ex.minDuration ≤ min (min ex.minDuration (total - (used : Int)).toNat) 15
        · simp only [if_pos h2, sumAlloc_cons]
          have hrec := ih total (used + min (min ex.minDuration (total - (used : Int)).toNat) 15)
          omega
        · simp only [if_neg h2]
          exact ih total used
      · simp only [if_neg hzi]
        by_cases h2 : ex.minDuration ≤ min (min ex.maxDuration (total - (used : Int)).toNat) 30
        · simp only [if_pos h2, sumAlloc_cons]
          have hrec := ih total (used + min (min ex.maxDuration (total - (used : Int)).toNat) 30)
          omega
        · simp only [if_neg h2]
          exact ih total used

theorem sumAlloc_select_exercises_le (pool : List Exercise) (total : Int)
    (prefs : List String) (zi : String) :
    sumAlloc (select_exercises pool total prefs zi) ≤ total.toNat := by
  have h := sumAlloc_selectLoop_le zi
    (sortScoredDesc (pool.map (fun ex => (exerciseScore prefs ex, ex)))) total 0
  simpa [select_exercises] using h

theorem recTypeStep_conserve (pool : List Exercise) (fitnessLevel : String)
    (prefs : List String) (zoneIntensity : String) (sessionDuration : Nat)
    (workoutType : String) (st : Int × List (Exercise × Nat)) (exType : String) :
    (sumAlloc (recTypeStep pool fitnessLevel prefs zoneIntensity sessionDuration workoutType
        st exType).2 : Int) +
      (recTypeStep pool fitnessLevel prefs zoneIntensity sessionDuration workoutType
        st exType).1 =
    (sumAlloc st.2 : Int) + st.1 := by
  by_cases hempty :
      (pool.filter (fun ex => ex.exType == exType &&
        is_suitable_difficulty ex fitnessLevel)).isEmpty = true
  · simp [recTypeStep, hempty]
  · simp only [recTypeStep, hempty]
    rw [if_neg (by simp [hempty])]
    rw [sumAlloc_append]
    push_cast
    ring

theorem recTypeStep_nonneg (pool : List Exercise) (fitnessLevel : String)
    (prefs : List String) (zoneIntensity : String) (sessionDuration : Nat)
    (workoutType : String) (st : Int × List (Exercise × Nat)) (exType : String)
    (h0 : 0 ≤ st.1) :
    0 ≤ (recTypeStep pool fitnessLevel prefs zoneIntensity sessionDuration workoutType
      st exType).1 := by
  have htd : (type_duration st.1 sessionDuration workoutType exType).toNat ≤ st.1.toNat := by
    unfold type_duration
    split_ifs <;> omega
  by_cases hempty :
      (pool.filter (fun ex => ex.exType == exType &&
        is_suitable_difficulty ex fitnessLevel)).isEmpty = true
  · simpa [recTypeStep, hempty] using h0
  · have hsel := sumAlloc_select_exercises_le
      (pool.filter (fun ex => ex.exType == exType && is_suitable_difficulty ex fitnessLevel))
      (type_duration st.1 sessionDuration workoutType exType) prefs zoneIntensity
    simp only [recTypeStep, hempty]
    rw [if_neg (by simp [hempty])]
    simp only
    omega

end ExMgr

/-- Claim C6, corrected statement.  `_generate_exercise_recommendations`
reserves no warm-up or cool-down block at all; the guarantee that does hold
is that the total allocated exercise duration never exceeds the full
requested session duration D. -/
theorem claim_C6 (pool : List ExMgr.Exercise) (fitnessLevel : String) (prefs : List String)
    (zoneIntensity : String) (sessionDuration : Nat) (workoutType : String) :
    ExMgr.sumAlloc (ExMgr.generate_exercise_recommendations pool fitnessLevel prefs
      zoneIntensity sessionDuration workoutType) ≤ sessionDuration := by
  have key : ∀ (tys : List String) (st : Int × List (ExMgr.Exercise × Nat)), 0 ≤ st.1 →
      (ExMgr.sumAlloc (tys.foldl (ExMgr.recTypeStep pool fitnessLevel prefs zoneIntensity
          sessionDuration workoutType) st).2 : Int) +
        (tys.foldl (ExMgr.recTypeStep pool fitnessLevel prefs zoneIntensity
          sessionDuration workoutType) st).1 =
        (ExMgr.sumAlloc st.2 : Int) + st.1 ∧
      0 ≤ (tys.foldl (ExMgr.recTypeStep pool fitnessLevel prefs zoneIntensity
          sessionDuration workoutType) st).1 := by
    intro tys
    induction tys with
    | nil => intro st h0; exact ⟨rfl, h0⟩
    | cons t ts ih =>
      intro st h0
      rw [List.foldl_cons]
      have hstep := ExMgr.recTypeStep_conserve pool fitnessLevel prefs zoneIntensity
        sessionDuration workoutType st t
      have hpos := ExMgr.recTypeStep_nonneg pool fitnessLevel prefs zoneIntensity
        sessionDuration workoutType st t h0
      obtain ⟨hc, hp⟩ := ih _ hpos
      exact ⟨by rw [hc, hstep], hp⟩
  simp only [ExMgr.generate_exercise_recommendations]
  obtain ⟨hc, hp⟩ := key
    (if workoutType = "mixed" then ["cardio", "strength"]
     else if workoutType = "cardio" then ["cardio"]
     else if workoutType = "strength" then ["strength"]
     else ["cardio", "strength"])
    ((sessionDuration : Int), []) (by positivity)
  simp only [ExMgr.sumAlloc_nil, Nat.cast_zero, zero_add] at hc
  omega

/-- The cardio exercise used in the C6 counterexample. -/
def cexCardio : ExMgr.Exercise :=
  { id := 1, name := "Corrida", exType := "cardio", difficulty := "low",
    minDuration := 10, maxDuration := 30, muscleGroups := ["legs"] }

/-- Counterexample to claim C6 as stated: a 30-minute cardio session with one
eligible exercise allocates the full 30 minutes, which exceeds
D − max(5, D/6) − max(5, D/8) = 30 − 5 − 5 = 20: no warm-up or cool-down is
reserved. -/
theorem claim_C6_counterexample :
    ExMgr.sumAlloc (ExMgr.generate_exercise_recommendations [cexCardio] "beginner" []
      "moderada" 30 "cardio") = 30 ∧
    ¬ ExMgr.sumAlloc (ExMgr.generate_exercise_recommendations [cexCardio] "beginner" []
      "moderada" 30 "cardio") ≤ 30 - max 5 (30 / 6) - max 5 (30 / 8) := by
  refine ⟨by decide, by decide⟩

/-- The per-candidate duration prescribed by the amended claim C7:
`min(minDuration, remainingBudget, 15)` in a high-intensity (`"alta"`) zone
and `min(maxDuration, remainingBudget, 30)` otherwise. -/
def greedyDuration (zoneIntensity : String) (ex : ExMgr.Exercise) (total : Int)
    (used : Nat) : Nat :=
  if zoneIntensity = "alta" then min (min ex.minDuration (total - (used : Int)).toNat) 15
  else min (min ex.maxDuration (total - (used : Int)).toNat) 30

/-- The greedy-selection relation written from the amended claim C7's wording:
selection stops once the used duration reaches the budget or the candidates
run out; otherwise the next candidate is allocated `greedyDuration` minutes
and accepted exactly when that allocation reaches its minimum duration. -/
inductive GreedySelect (zoneIntensity : String) :
    List (Nat × ExMgr.Exercise) → Int → Nat → List (ExMgr.Exercise × Nat) → Prop
  | budgetExhausted (l : List (Nat × ExMgr.Exercise)) (total : Int) (used : Nat) :
      total ≤ (used : Int) → GreedySelect zoneIntensity l total used []
  | noCandidates (total : Int) (used : Nat) : GreedySelect zoneIntensity [] total used []
  | accepted (s : Nat) (ex : ExMgr.Exercise) (rest : List (Nat × ExMgr.Exercise))
      (total : Int) (used : Nat) (out : List (ExMgr.Exercise × Nat)) :
      (used : Int) < total →
      ex.minDuration ≤ greedyDuration zoneIntensity ex total used →
      GreedySelect zoneIntensity rest total
        (used + greedyDuration zoneIntensity ex total used) out →
      GreedySelect zoneIntensity ((s, ex) :: rest) total used
        ((ex, greedyDuration zoneIntensity ex total used) :: out)
  | rejected (s : Nat) (ex : ExMgr.Exercise) (rest : List (Nat × ExMgr.Exercise))
      (total : Int) (used : Nat) (out : List (ExMgr.Exercise × Nat)) :
      (used : Int) < total →
      greedyDuration zoneIntensity ex total used < ex.minDuration →
      GreedySelect zoneIntensity rest total used out →
      GreedySelect zoneIntensity ((s, ex) :: rest) total used out

theorem mem_selectLoop_alta (l : List (Nat × ExMgr.Exercise)) :
    ∀ (total : Int) (used : Nat) (p : ExMgr.Exercise × Nat),
      p ∈ ExMgr.selectLoop "alta" l total used →
      p.2 = p.1.minDuration ∧ p.1.minDuration ≤ 15 := by
  induction l with
  | nil =>
    intro total used p hp
    simp [ExMgr.selectLoop] at hp
  | cons x rest ih =>
    intro total used p hp
    obtain ⟨s, ex⟩ := x
    simp only [ExMgr.selectLoop, ite_true] at hp
    by_cases h1 : total ≤ (used : Int)
    · rw [if_pos h1] at hp
      simp at hp
    · rw [if_neg h1] at hp
      by_cases h2 : ex.minDuration ≤ min (min ex.minDuration (total - (used : Int)).toNat) 15
      · rw [if_pos h2] at hp
        rcases List.mem_cons.mp hp with heq | hmem
        · subst heq
          constructor
          · simp only
            omega
          · simp only
            omega
        · exact ih total _ p hmem
      · rw [if_neg h2] at hp
        exact ih total used p hp

/-- Claim C7, corrected statement.  The selection loop of `_select_exercises`
follows the greedy policy of the claim except that in a high-intensity zone
the allocation is `min(minDuration, remainingBudget, 15)` — the candidate's
minimum, not maximum, duration — so an accepted candidate in a high-intensity
zone is always allocated exactly its minimum duration, which must be at most
15 minutes; in all other zones the allocation is
`min(maxDuration, remainingBudget, 30)` as claimed. -/
theorem claim_C7 :
    (∀ (zoneIntensity : String) (l : List (Nat × ExMgr.Exercise)) (total : Int) (used : Nat),
      GreedySelect zoneIntensity l total used (ExMgr.selectLoop zoneIntensity l total used)) ∧
    (∀ (pool : List ExMgr.Exercise) (total : Int) (prefs : List String)
      (p : ExMgr.Exercise × Nat),
      p ∈ ExMgr.select_exercises pool total prefs "alta" →
      p.2 = p.1.minDuration ∧ p.1.minDuration ≤ 15) := by
  constructor
  · intro zoneIntensity l
    induction l with
    | nil =>
      intro total used
      exact .noCandidates total used
    | cons x rest ih =>
      intro total used
      obtain ⟨s, ex⟩ := x
      by_cases h1 : total ≤ (used : Int)
      · rw [show ExMgr.selectLoop zoneIntensity ((s, ex) :: rest) total used = [] by
          simp [ExMgr.selectLoop, h1]]
        exact .budgetExhausted _ total used h1
      · have heq : ExMgr.selectLoop zoneIntensity ((s, ex) :: rest) total used =
            if ex.minDuration ≤ greedyDuration zoneIntensity ex total used then
              (ex, greedyDuration zoneIntensity ex total used) ::
                ExMgr.selectLoop zoneIntensity rest total
                  (used + greedyDuration zoneIntensity ex total used)
            else ExMgr.selectLoop zoneIntensity rest total used := by
          simp [ExMgr.selectLoop, h1, greedyDuration]
        rw [heq]
        by_cases h2 : ex.minDuration ≤ greedyDuration zoneIntensity ex total used
        · rw [if_pos h2]
          exact .accepted s ex rest total used _ (by omega) h2 (ih total _)
        · rw [if_neg h2]
          exact .rejected s ex rest total used _ (by omega) (by omega) (ih total used)
  · intro pool total prefs p hp
    exact mem_selectLoop_alta _ total 0 p hp

/-- The exercise used in the C7 counterexample and witness. -/
def cexHiit : ExMgr.Exercise :=
  { id := 2, name := "HIIT", exType := "cardio", difficulty := "low",
    minDuration := 5, maxDuration := 30, muscleGroups := [] }

/-- Counterexample to claim C7 as stated: in a high-intensity (`"alta"`) zone
with a 20-minute budget, the first candidate (minDuration 5, maxDuration 30)
is allocated 5 minutes, while the claim's formula
`min(maxDuration, remainingBudget, 15)` prescribes 15. -/
theorem claim_C7_counterexample :
    (ExMgr.select_exercises [cexHiit] 20 [] "alta").map (fun p => p.2) = [5] ∧
    (5 : Nat) ≠ min (min cexHiit.maxDuration ((20 : Int) - ((0 : Nat) : Int)).toNat) 15 := by
  refine ⟨by decide, by decide⟩

/-- Witness for C7 at a concrete input. -/
theorem claim_C7_witness :
    GreedySelect "alta" [(0, cexHiit)] 20 0 (ExMgr.selectLoop "alta" [(0, cexHiit)] 20 0) ∧
    ((cexHiit, 5) : ExMgr.Exercise × Nat).2 = cexHiit.minDuration ∧ cexHiit.minDuration ≤ 15 :=
  ⟨claim_C7.1 "alta" [(0, cexHiit)] 20 0,
    claim_C7.2 [cexHiit] 20 [] (cexHiit, 5) (by decide)⟩

/-! ## Determinism and tie-break order of the recommendation pipeline -/

/-- Position tags for the candidate pool, in first-seen order. -/
def tagFrom {α : Type} (n : Nat) : List α → List (Nat × α)
  | [] => []
  | x :: xs => (n, x) :: tagFrom (n + 1) xs

/-- The scored pool with each exercise tagged by its position in the input
pool, mirroring the `scored_exercises` list of `_select_exercises`. -/
def scoredTagged (prefs : List String) (pool : List ExMgr.Exercise) :
    List (Nat × Nat × ExMgr.Exercise) :=
  (tagFrom 0 pool).map (fun p => (ExMgr.exerciseScore prefs p.2, p))

/-- The stable descending order: strictly higher score first, ties resolved
by first-seen position. -/
def ScoreIdxOrder (a b : Nat × Nat × ExMgr.Exercise) : Prop :=
  b.1 < a.1 ∨ (a.1 = b.1 ∧ a.2.1 < b.2.1)

theorem insertScoredDesc_perm {α : Type} (x : Nat × α) (l : List (Nat × α)) :
    List.Perm (ExMgr.insertScoredDesc x l) (x :: l) := by
  induction l with
  | nil => exact List.Perm.refl _
  | cons y ys ih =>
    simp only [ExMgr.insertScoredDesc]
    split_ifs
    · exact (ih.cons y).trans (List.Perm.swap x y ys)
    · exact List.Perm.refl _

theorem sortScoredDesc_perm {α : Type} (l : List (Nat × α)) :
    List.Perm (ExMgr.sortScoredDesc l) l := by
  induction l with
  | nil => exact List.Perm.refl _
  | cons x xs ih =>
    exact (insertScoredDesc_perm x (ExMgr.sortScoredDesc xs)).trans (ih.cons x)

theorem insertScoredDesc_pairwise (x : Nat × Nat × ExMgr.Exercise)
    (l : List (Nat × Nat × ExMgr.Exercise)) (hl : l.Pairwise ScoreIdxOrder)
    (hx : ∀ y ∈ l, x.2.1 < y.2.1) :
    (ExMgr.insertScoredDesc x l).Pairwise ScoreIdxOrder := by
  induction l with
  | nil => exact List.pairwise_singleton _ x
  | cons y ys ih =>
    simp only [ExMgr.insertScoredDesc]
    rcases List.pairwise_cons.mp hl with ⟨hy, hys⟩
    split_ifs with hcmp
    · refine List.pairwise_cons.mpr ⟨?_, ih hys (fun z hz => hx z (List.mem_cons_of_mem y hz))⟩
      intro z hz
      rcases List.mem_cons.mp (((insertScoredDesc_perm x ys).mem_iff).mp hz) with rfl | hzys
      · exact Or.inl hcmp
      · exact hy z hzys
    · refine List.pairwise_cons.mpr ⟨?_, hl⟩
      intro z hz
      rcases List.mem_cons.mp hz with rfl | hzys
      · have hxz := hx _ (List.mem_cons_self _ ys)
        unfold ScoreIdxOrder
        omega
      · have h2 := hy z hzys
        have h3 := hx z (List.mem_cons_of_mem y hzys)
        unfold ScoreIdxOrder at h2 ⊢
        omega

theorem sortScoredDesc_pairwise (l : List (Nat × Nat × ExMgr.Exercise))
    (h : l.Pairwise (fun a b => a.2.1 < b.2.1)) :
    (ExMgr.sortScoredDesc l).Pairwise ScoreIdxOrder := by
  induction l with
  | nil => exact List.Pairwise.nil
  | cons x xs ih =>
    rcases List.pairwise_cons.mp h with ⟨hx, hxs⟩
    exact insertScoredDesc_pairwise x (ExMgr.sortScoredDesc xs) (ih hxs)
      (fun y hy => hx y (((sortScoredDesc_perm xs).mem_iff).mp hy))

theorem tagFrom_le {α : Type} (n : Nat) (l : List α) : ∀ y ∈ tagFrom n l, n ≤ y.1 := by
  induction l generalizing n with
  | nil => intro y hy; simp [tagFrom] at hy
  | cons x xs ih =>
    intro y hy
    rcases List.mem_cons.mp hy with rfl | hmem
    · exact le_refl n
    · exact le_trans (Nat.le_succ n) (ih (n + 1) y hmem)

theorem tagFrom_pairwise {α : Type} (n : Nat) (l : List α) :
    (tagFrom n l).Pairwise (fun a b => a.1 < b.1) := by
  induction l generalizing n with
  | nil => exact List.Pairwise.nil
  | cons x xs ih =>
    refine List.pairwise_cons.mpr ⟨?_, ih (n + 1)⟩
    intro y hy
    exact lt_of_lt_of_le (Nat.lt_succ_self n) (tagFrom_le (n + 1) xs y hy)

theorem scoredTagged_pairwise (prefs : List String) (pool : List ExMgr.Exercise) :
    (scoredTagged prefs pool).Pairwise (fun a b => a.2.1 < b.2.1) := by
  exact (tagFrom_pairwise 0 pool).map _ (fun a b h => h)

theorem map_insertScoredDesc {α β : Type} (g : Nat × α → Nat × β)
    (hg : ∀ a, (g a).1 = a.1) (x : Nat × α) (l : List (Nat × α)) :
    (ExMgr.insertScoredDesc x l).map g = ExMgr.insertScoredDesc (g x) (l.map g) := by
  induction l with
  | nil => rfl
  | cons y ys ih =>
    simp only [ExMgr.insertScoredDesc, List.map_cons, hg x, hg y]
    split_ifs
    · simp [ih]
    · simp

theorem map_sortScoredDesc {α β : Type} (g : Nat × α → Nat × β)
    (hg : ∀ a, (g a).1 = a.1) (l : List (Nat × α)) :
    (ExMgr.sortScoredDesc l).map g = ExMgr.sortScoredDesc (l.map g) := by
  induction l with
  | nil => rfl
  | cons x xs ih =>
    simp only [ExMgr.sortScoredDesc, List.map_cons]
    rw [map_insertScoredDesc g hg, ih]

theorem map_snd_tagFrom {α : Type} (n : Nat) (l : List α) :
    (tagFrom n l).map (fun p => p.2) = l := by
  induction l generalizing n with
  | nil => rfl
  | cons x xs ih => simp [tagFrom, ih]

/-- Claim C8, confirmed.  The recommendation pipeline is a pure function of
the user profile, current heart rate, duration, workout type and candidate
pool: identical inputs always produce identical plans.  Moreover the scored
ordering consumed by the greedy selector is exactly the stable descending
sort of the pool — a permutation of the scored pool that is strictly
descending by score with ties resolved by first-seen position — and dropping
the position tags recovers precisely the ordering inside
`select_exercises`. -/
theorem claim_C8 :
    (∀ (u₁ u₂ : ExMgr.UserLite) (hr₁ hr₂ D₁ D₂ : Nat) (wt₁ wt₂ : String)
      (pool₁ pool₂ : List ExMgr.Exercise),
      u₁ = u₂ → hr₁ = hr₂ → D₁ = D₂ → wt₁ = wt₂ → pool₁ = pool₂ →
      ExMgr.recommend_exercises u₁ hr₁ D₁ wt₁ pool₁ =
        ExMgr.recommend_exercises u₂ hr₂ D₂ wt₂ pool₂) ∧
    (∀ (prefs : List String) (pool : List ExMgr.Exercise),
      List.Perm (ExMgr.sortScoredDesc (scoredTagged prefs pool)) (scoredTagged prefs pool) ∧
      (ExMgr.sortScoredDesc (scoredTagged prefs pool)).Pairwise ScoreIdxOrder ∧
      (ExMgr.sortScoredDesc (scoredTagged prefs pool)).map (fun q => (q.1, q.2.2)) =
        ExMgr.sortScoredDesc (pool.map (fun ex => (ExMgr.exerciseScore prefs ex, ex)))) := by
  constructor
  · intro u₁ u₂ hr₁ hr₂ D₁ D₂ wt₁ wt₂ pool₁ pool₂ hu hhr hD hwt hpool
    subst hu hhr hD hwt hpool
    rfl
  · intro prefs pool
    refine ⟨sortScoredDesc_perm _, sortScoredDesc_pairwise _ (scoredTagged_pairwise prefs pool),
      ?_⟩
    rw [map_sortScoredDesc (fun q : Nat × Nat × ExMgr.Exercise => (q.1, q.2.2))
      (fun a => rfl) (scoredTagged prefs pool)]
    congr 1
    unfold scoredTagged
    rw [List.map_map]
    have : ((fun q => (q.1, q.2.2)) ∘ fun p => (ExMgr.exerciseScore prefs p.2, p)) =
        (fun p : Nat × ExMgr.Exercise => (ExMgr.exerciseScore prefs p.2, p.2)) := rfl
    rw [this]
    rw [show (fun p : Nat × ExMgr.Exercise => (ExMgr.exerciseScore prefs p.2, p.2)) =
        ((fun ex => (ExMgr.exerciseScore prefs ex, ex)) ∘ fun p : Nat × ExMgr.Exercise => p.2)
      from rfl]
    rw [← List.map_map, map_snd_tagFrom]

/-- The user profile used in the C8 witness. -/
def cexUser : ExMgr.UserLite :=
  { age := 30, fitnessLevel := .beginner, healthConditions := [],
    restingHeartRate := some 60, preferences := ["cardio"] }

/-- Witness for C8 at a concrete input. -/
theorem claim_C8_witness :
    ExMgr.recommend_exercises cexUser 120 30 "cardio" [cexCardio] =
      ExMgr.recommend_exercises cexUser 120 30 "cardio" [cexCardio] :=
  claim_C8.1 cexUser cexUser 120 120 30 30 "cardio" "cardio" [cexCardio] [cexCardio]
    rfl rfl rfl rfl rfl

end FitnessAssistant
